import Mathlib

/-!
Verification of the dynamic aggregate-query planner in `custom/db.py`
(class `Database`): `_aggregate_item`, `_is_not_null`,
`_ts_col_rounded_to_minutes`, `_ts_col_rounded_to_hours`, `query`,
`query_agg`, `subquery_join` and `query_time_agg` are embedded as
executable Lean functions over an explicit expression / query-plan model,
and the spec's claims about them are settled as theorems.

Modelling conventions:
* SQLAlchemy column expressions are modelled by the `SqlExpr` tree; a
  projected (`.label(...)`-ed) expression is a `Labeled`; a raw column
  appended to a projection keeps its own column name as its output name,
  which is how SQLAlchemy keys subquery columns.
* Python exceptions are modelled by `Except DbError`; the `DbError`
  constructors record the Python exception class (ValueError / KeyError /
  TypeError / IndexError) plus the message, so that distinct exception
  kinds stay distinguishable.
* `get_table` (table resolution) is an external collaborator; tables are
  passed in directly as resolved `Table` values.  `dimension is not None`
  checks in the source become `Option.isSome` checks on the resolved
  dimension, which agrees with the source because `dim` is resolved
  exactly when the `dimension` name is supplied.
* Python's `logger.warning` calls are modelled by accumulating the warning
  messages in the result.
* Python dicts are modelled as association lists in insertion order
  (Python dicts iterate in insertion order).
-/

namespace LSPI

/-- A resolved table: name plus column names (`table.c`). -/
structure Table where
  name : String
  cols : List String
deriving DecidableEq

/-- `table.c[col]` membership test. -/
def Table.hasCol (t : Table) (c : String) : Bool :=
  t.cols.contains c

/-- SQLAlchemy column-expression tree as built by the planner. -/
inductive SqlExpr where
  | column (table : String) (name : String)
  | fn1 (fn : String) (a : SqlExpr)
  | fn2 (fn : String) (a b : SqlExpr)
  | binOp (op : String) (a b : SqlExpr)
  | intLit (n : Int)
deriving DecidableEq

/-- A projected expression together with its output name (`.label(...)`).
A raw column appended to a projection carries its column name as label. -/
structure Labeled where
  expr : SqlExpr
  label : String
deriving DecidableEq

/-- Filter predicates appearing in assembled plans. -/
inductive Pred where
  | isNotNull (e : SqlExpr)
  | ge (e : SqlExpr) (v : String)
  | lt (e : SqlExpr) (v : String)
  | inList (e : SqlExpr) (vs : List String)
  | or (ps : List Pred)

/-- Python exception classes raised by the planner, with their messages. -/
inductive DbError where
  | valueError (msg : String)
  | keyError (msg : String)
  | typeError (msg : String)
  | indexError (msg : String)
deriving DecidableEq

/-- An assembled single-table query plan: projection, group-by list,
filter list, and whether the dimension join was applied. -/
structure Query where
  projection : List Labeled
  groupBy : List Labeled
  filters : List Pred
  dimJoin : Bool

/-- An aggregate spec entry: a single aggregate name or a list of them
(`agg_dict` values in `query_agg`). -/
inductive Aggs where
  | one (s : String)
  | many (l : List String)

/-- Result of `query_agg`: the assembled query, the `pandas_aggregate`
fallback frequency (when push-down was impossible), and the warning
messages logged along the way. -/
structure AggResult where
  query : Query
  pandas_aggregate : Option String
  warnings : List String

/-- Outcome of the time-grain resolution inside `query_agg`
(lines 1427-1444 of db.py): either a push-down bucket expression put on
the group-by list, or a fallback resampling frequency. -/
inductive BucketPlan where
  | push (e : Labeled)
  | fallback (freq : String)

/-- A join key for `subquery_join`: a common column name, or an
explicitly paired (left, right) pair of column names. -/
inductive JoinKey where
  | same (c : String)
  | pair (l r : String)

/-- Result of `subquery_join`: the two subqueries, the equi-join
condition a.l = b.r as name pairs, and the combined projection. -/
structure JoinQuery where
  left : Query
  right : Query
  joinOn : List (String × String)
  projection : List Labeled

/-- The `agg_map` dict of `_aggregate_item`: aggregate name to SQL
function name. -/
def agg_map : List (String × String) :=
  [("count", "count"), ("max", "max"), ("mean", "avg"),
   ("min", "min"), ("std", "std"), ("sum", "sum")]

/-- `Database._aggregate_item` (db.py lines 290-327).  Computes the
default alias, looks the aggregate up in `agg_map` (`ValueError` when
unsupported), resolves the column against the table and then the
dimension (`KeyError` when absent from both; `AttributeError` from a
`None` dimension is caught by the same handler).  Note that in the
"other aggregate on the timestamp column" branch the source formats the
still-`None` local `alias_column`, yielding the literal prefix `None_`. -/
def aggregate_item (table : Table) (column_name : String) (aggregate : String)
    (alias_column : Option String) (dimension_table : Option Table)
    (timestamp_col : Option String) : Except DbError Labeled :=
  let alias1 : String :=
    match alias_column with
    | some a => a
    | none =>
      match timestamp_col with
      | some ts =>
        if column_name == ts then
          if aggregate == "min" then "first_" ++ ts
          else if aggregate == "max" then "last_" ++ ts
          else "None_" ++ ts
        else column_name
      | none => column_name
  match agg_map.lookup aggregate with
  | none => .error (.valueError ("Unsupported database aggregegate function " ++ aggregate))
  | some fn =>
    if table.hasCol column_name then
      .ok ⟨.fn1 fn (.column table.name column_name), alias1⟩
    else
      match dimension_table with
      | some d =>
        if d.hasCol column_name then
          .ok ⟨.fn1 fn (.column d.name column_name), alias1⟩
        else
          .error (.keyError ("Aggregate column " ++ column_name ++ " not present in table or on dimension"))
      | none =>
        .error (.keyError ("Aggregate column " ++ column_name ++ " not present in table or on dimension"))

/-- `Database._is_not_null` (db.py lines 329-341): an IS NOT NULL
predicate on the column, resolved against the table first and the
dimension second; `ValueError` when absent from both. -/
def is_not_null (table : Table) (dimension_table : Option Table)
    (column : String) : Except DbError Pred :=
  if table.hasCol column then
    .ok (.isNotNull (.column table.name column))
  else
    match dimension_table with
    | some d =>
      if d.hasCol column then
        .ok (.isNotNull (.column d.name column))
      else
        .error (.valueError ("Column " ++ column ++ " not found on time series or dimension table."))
    | none =>
      .error (.valueError ("Column " ++ column ++ " not found on time series or dimension table."))

/-- `Database._ts_col_rounded_to_minutes` (db.py lines 1249-1258):
`add_minutes(add_hours(timestamp(date(col)), hour(col)), (minute(col)/minutes)*minutes)`
labeled with `label`; `table.c[column_name]` raises `KeyError` when the
column is missing. -/
def ts_col_rounded_to_minutes (table : Table) (column_name : String)
    (minutes : Int) (label : String) : Except DbError Labeled :=
  if table.hasCol column_name then
    let col := SqlExpr.column table.name column_name
    let hour := SqlExpr.fn2 "add_hours" (.fn1 "timestamp" (.fn1 "date" col)) (.fn1 "hour" col)
    let min_col := SqlExpr.binOp "*" (.binOp "/" (.fn1 "minute" col) (.intLit minutes)) (.intLit minutes)
    .ok ⟨.fn2 "add_minutes" hour min_col, label⟩
  else .error (.keyError column_name)

/-- `Database._ts_col_rounded_to_hours` (db.py lines 1261-1270):
`add_hours(timestamp(date(col)), (hour(col)/hours)*hours)` labeled. -/
def ts_col_rounded_to_hours (table : Table) (column_name : String)
    (hours : Int) (label : String) : Except DbError Labeled :=
  if table.hasCol column_name then
    let col := SqlExpr.column table.name column_name
    let date_col := SqlExpr.fn1 "timestamp" (.fn1 "date" col)
    let hour_col := SqlExpr.binOp "*" (.binOp "/" (.fn1 "hour" col) (.intLit hours)) (.intLit hours)
    .ok ⟨.fn2 "add_hours" date_col hour_col, label⟩
  else .error (.keyError column_name)

/-- Python `str.endswith(suffix)`, computed on the character lists. -/
def endsWithL (s suffix : String) : Bool :=
  s.data.drop (s.data.length - suffix.data.length) == suffix.data

/-- Python `str[:-n]` (for `n > 0`), computed on the character lists. -/
def dropRightL (s : String) (n : Nat) : String :=
  ⟨s.data.take (s.data.length - n)⟩

/-- ASCII whitespace stripped by Python `int()`. -/
def isPySpace (c : Char) : Bool :=
  c == ' ' || c == '\t' || c == '\n' || c == '\r'

/-- Strip surrounding whitespace from a character list. -/
def trimL (l : List Char) : List Char :=
  ((l.dropWhile isPySpace).reverse.dropWhile isPySpace).reverse

/-- Digits of a string read as a natural number. -/
def digitsToNat (s : List Char) : Nat :=
  s.foldl (fun n c => n * 10 + (c.toNat - 48)) 0

/-- One-or-more decimal digits, read as a natural number. -/
def pyIntNat (l : List Char) : Option Nat :=
  if l.length > 0 && l.all Char.isDigit then some (digitsToNat l) else none

/-- Python `int(str)`: optional surrounding whitespace, optional sign,
then one or more decimal digits; `none` models the `ValueError` raised
on anything else (grain strings contain no underscores, so the digit
grouping extension of `int` is irrelevant here). -/
def pyInt (s : String) : Option Int :=
  match trimL s.data with
  | '-' :: rest => (pyIntNat rest).map fun n => -(n : Int)
  | '+' :: rest => (pyIntNat rest).map fun n => (n : Int)
  | l => (pyIntNat l).map fun n => (n : Int)

/-- The time-grain branch chain of `query_agg` (db.py lines 1427-1444),
given a non-`None` grain and timestamp column: raw timestamp group key
when the grain equals the timestamp column, minute / hour flooring
expressions for `<int>min` / `<int>H` suffixes (Python `int(...)` raises
`ValueError` when the prefix is not an integer literal), calendar
truncation functions for day/week/month/year, and otherwise the fallback
`pandas_aggregate` frequency. -/
def resolveTimeGrain (table : Table) (time_grain : String)
    (timestamp : String) : Except DbError BucketPlan :=
  if time_grain == timestamp then
    if table.hasCol timestamp then
      .ok (.push ⟨.column table.name timestamp, timestamp⟩)
    else .error (.keyError timestamp)
  else if endsWithL time_grain "min" then
    match pyInt (dropRightL time_grain 3) with
    | none => .error (.valueError ("invalid literal for int() with base 10: " ++ dropRightL time_grain 3))
    | some minutes => (ts_col_rounded_to_minutes table timestamp minutes timestamp).map .push
  else if endsWithL time_grain "H" then
    match pyInt (dropRightL time_grain 1) with
    | none => .error (.valueError ("invalid literal for int() with base 10: " ++ dropRightL time_grain 1))
    | some hours => (ts_col_rounded_to_hours table timestamp hours timestamp).map .push
  else if time_grain == "day" then
    if table.hasCol timestamp then .ok (.push ⟨.fn1 "day" (.column table.name timestamp), timestamp⟩)
    else .error (.keyError timestamp)
  else if time_grain == "week" then
    if table.hasCol timestamp then .ok (.push ⟨.fn1 "this_week" (.column table.name timestamp), timestamp⟩)
    else .error (.keyError timestamp)
  else if time_grain == "month" then
    if table.hasCol timestamp then .ok (.push ⟨.fn1 "this_month" (.column table.name timestamp), timestamp⟩)
    else .error (.keyError timestamp)
  else if time_grain == "year" then
    if table.hasCol timestamp then .ok (.push ⟨.fn1 "this_year" (.column table.name timestamp), timestamp⟩)
    else .error (.keyError timestamp)
  else
    .ok (.fallback time_grain)

/-- The group-by loop of `query_agg` (db.py lines 1447-1459): each name
resolves against the fact table, then the dimension when one was
supplied (`ValueError` on a miss there), and raises `KeyError` on a miss
with no dimension supplied. -/
def resolveGroupBy (table : Table) (dim : Option Table) :
    List String → Except DbError (List Labeled)
  | [] => .ok []
  | g :: rest => do
    let head ←
      if table.hasCol g then
        Except.ok (⟨.column table.name g, g⟩ : Labeled)
      else
        match dim with
        | some d =>
          if d.hasCol g then
            Except.ok (⟨.column d.name g, g⟩ : Labeled)
          else
            Except.error (.valueError ("group by column " ++ g ++ " not found in main table or dimension table"))
        | none =>
          Except.error (.keyError ("group by column " ++ g ++ " not found in main table and no dimension table specified"))
    let tail ← resolveGroupBy table dim rest
    return head :: tail

/-- `agg_outputs[col][i]` (db.py line 1406): subscripting `None` raises
`TypeError`; a missing dict key raises `KeyError`; a too-short alias
list raises `IndexError`. -/
def aggOutputsLookup (agg_outputs : Option (List (String × List String)))
    (col : String) (i : Nat) : Except DbError String :=
  match agg_outputs with
  | none => .error (.typeError "NoneType object is not subscriptable")
  | some outs =>
    match outs.lookup col with
    | none => .error (.keyError col)
    | some l =>
      match l.get? i with
      | none => .error (.indexError "list index out of range")
      | some s => .ok s

/-- The inner `for i,agg in enumerate(aggs)` loop of `query_agg`
(db.py lines 1404-1413): the alias for position `i` comes from
`agg_outputs[col][i]`, with `KeyError`/`IndexError` replaced by the
default `<col>_<agg>` alias plus a logged warning; any other exception
(in particular the `TypeError` from a `None` alias table) propagates. -/
def manyLoop (table : Table) (dim : Option Table) (timestamp : Option String)
    (agg_outputs : Option (List (String × List String))) (col : String) :
    Nat → List String → Except DbError (List Labeled × List String)
  | _, [] => .ok ([], [])
  | i, agg :: rest => do
    let (output, warn) ←
      match aggOutputsLookup agg_outputs col i with
      | .ok o => Except.ok (o, ([] : List String))
      | .error (.keyError _) =>
        Except.ok (col ++ "_" ++ agg,
          ["No output item name specified for " ++ col ++ ", " ++ agg ++ ". Using default."])
      | .error (.indexError _) =>
        Except.ok (col ++ "_" ++ agg,
          ["No output item name specified for " ++ col ++ ", " ++ agg ++ ". Using default."])
      | .error e => Except.error e
    let item ← aggregate_item table col agg (some output) dim timestamp
    let (items, warns) ← manyLoop table dim timestamp agg_outputs col (i + 1) rest
    return (item :: items, warn ++ warns)

/-- Dispatch on the form of one `agg_dict` value (`isinstance(aggs,str)`
versus `isinstance(aggs,list)` in db.py lines 1401-1413): a single
aggregate is built with no explicit alias, a list goes through the
positional-alias loop.  (The source's third branch, a `ValueError` for
any other value shape, is unrepresentable in the typed `Aggs`.) -/
def aggItemsFor (table : Table) (dim : Option Table) (timestamp : Option String)
    (agg_outputs : Option (List (String × List String))) (col : String) :
    Aggs → Except DbError (List Labeled × List String)
  | .one a => (aggregate_item table col a none dim timestamp).map fun item => ([item], ([] : List String))
  | .many l => manyLoop table dim timestamp agg_outputs col 0 l

/-- The outer `for col,aggs in agg_dict.items()` loop of `query_agg`
(db.py lines 1400-1417), producing the aggregate projection `args`, the
`metric_filter` list (one `_is_not_null` predicate per aggregated
column), and the logged warnings. -/
def aggLoop (table : Table) (dim : Option Table) (timestamp : Option String)
    (agg_outputs : Option (List (String × List String))) :
    List (String × Aggs) → Except DbError (List Labeled × List Pred × List String)
  | [] => .ok ([], [], [])
  | (col, aggs) :: rest => do
    let (argsHere, warnsHere) ← aggItemsFor table dim timestamp agg_outputs col aggs
    let mf ← is_not_null table dim col
    let (args, mfs, warns) ← aggLoop table dim timestamp agg_outputs rest
    return (argsHere ++ args, mf :: mfs, warnsHere ++ warns)

/-- `Database.query` (db.py lines 1273-1351): projection (whole table,
plus non-`deviceid` dimension columns, unless an explicit column list is
given), dimension join on `deviceid`, and the date-range and entity
filters.  A date bound without a timestamp column raises `ValueError`. -/
def query (table : Table) (dim : Option Table)
    (column_names : Option (List String)) (timestamp_col : Option String)
    (start_ts end_ts : Option String) (entities : Option (List String)) :
    Except DbError Query := do
  let query_args : List Labeled ←
    match column_names with
    | none =>
      match dim with
      | none => pure (table.cols.map fun c => (⟨.column table.name c, c⟩ : Labeled))
      | some d =>
        pure (table.cols.map (fun c => (⟨.column table.name c, c⟩ : Labeled))
          ++ (d.cols.filter (fun c => c ≠ "deviceid")).map fun c => (⟨.column d.name c, c⟩ : Labeled))
    | some cs =>
      cs.mapM fun c =>
        if table.hasCol c then
          Except.ok (⟨.column table.name c, c⟩ : Labeled)
        else
          match dim with
          | some d =>
            if d.hasCol c then Except.ok (⟨.column d.name c, c⟩ : Labeled)
            else Except.error (.keyError ("Unable to find column " ++ c ++ " in table or dimension for entity type " ++ table.name))
          | none => Except.error (.keyError ("Unable to find column " ++ c ++ " in table or dimension for entity type " ++ table.name))
  let startFilters : List Pred ←
    match start_ts with
    | none => pure []
    | some s =>
      match timestamp_col with
      | none => Except.error (.valueError "No timestamp_col provided to query. Must provide a timestamp column if you have a date filter")
      | some ts =>
        if table.hasCol ts then pure [Pred.ge (.column table.name ts) s]
        else Except.error (.keyError ts)
  let endFilters : List Pred ←
    match end_ts with
    | none => pure []
    | some e =>
      match timestamp_col with
      | none => Except.error (.valueError "No timestamp_col provided to query. Must provide a timestamp column if you have a date filter")
      | some ts =>
        if table.hasCol ts then pure [Pred.lt (.column table.name ts) e]
        else Except.error (.keyError ts)
  let entFilters : List Pred ←
    match entities with
    | none => pure []
    | some es =>
      if table.hasCol "deviceid" then pure [Pred.inList (.column table.name "deviceid") es]
      else Except.error (.keyError "deviceid")
  return { projection := query_args
           groupBy := []
           filters := startFilters ++ endFilters ++ entFilters
           dimJoin := dim.isSome }

/-- The `if time_grain is not None` block of `query_agg` (db.py lines
1423-1444): no grain means no time group key and no fallback; a grain
without a timestamp column raises `ValueError`; otherwise the resolved
grain contributes either the bucket group key or the `pandas_aggregate`
fallback frequency. -/
def timeGrainStep (table : Table) (timestamp : Option String) :
    Option String → Except DbError (List Labeled × Option String)
  | none => .ok ([], none)
  | some tg =>
    match timestamp with
    | none => .error (.valueError "You must supply a timestamp column when doing a time-based aggregate")
    | some ts =>
      match resolveTimeGrain table tg ts with
      | .ok (.push e) => .ok ([e], none)
      | .ok (.fallback f) => .ok ([], some f)
      | .error e => .error e

/-- The branch of `query_agg` on `pandas_aggregate` (db.py lines
1462-1476): the push-down plan `session.query(*args).group_by(*grp)`
plus the dimension join — note that `start_ts`, `end_ts` and `entities`
are not consulted on this branch — or, on fallback, the raw filtered
row query built by `Database.query`. -/
def assembleBase (table : Table) (dim : Option Table)
    (timestamp : Option String) (start_ts end_ts : Option String)
    (entities : Option (List String)) (args grp : List Labeled)
    (pandas_aggregate : Option String) : Except DbError Query :=
  if pandas_aggregate.isNone then
    pure { projection := args, groupBy := grp, filters := [], dimJoin := dim.isSome }
  else
    query table dim none timestamp start_ts end_ts entities

/-- `Database.query_agg` (db.py lines 1354-1482).  Builds the aggregate
projection and per-column not-null filters, resolves the time grain
(`ValueError` when a grain is supplied without a timestamp column) and
the group-by names, then either assembles the push-down plan
`session.query(*args).group_by(*grp)` (plus the dimension join) or, when
the grain fell back, delegates to `query` for the raw filtered rows;
finally the OR of the not-null filters is applied to either plan. -/
def query_agg (table : Table) (dim : Option Table)
    (agg_dict : List (String × Aggs))
    (agg_outputs : Option (List (String × List String)))
    (groupby : Option (List String))
    (timestamp : Option String) (time_grain : Option String)
    (start_ts end_ts : Option String) (entities : Option (List String)) :
    Except DbError AggResult := do
  let (args, metric_filter, warnings) ← aggLoop table dim timestamp agg_outputs agg_dict
  let (tgrp, pandas_aggregate) ← timeGrainStep table timestamp time_grain
  let ggrp ← resolveGroupBy table dim (groupby.getD [])
  let grp := tgrp ++ ggrp
  let args := args ++ grp
  let base : Query ← assembleBase table dim timestamp start_ts end_ts entities args grp pandas_aggregate
  return { query := { base with filters := base.filters ++ [Pred.or metric_filter] }
           pandas_aggregate := pandas_aggregate
           warnings := warnings }

/-- Output-column membership of a subquery (`subquery.c[name]`). -/
def Query.hasOutCol (q : Query) (c : String) : Bool :=
  q.projection.any fun l => l.label == c

/-- `Database.subquery_join` (db.py lines 877-905): equi-join the two
subqueries (`a` and `b`) on the given keys (`KeyError` when a key is
missing from either side), project every right-hand column named in
`kwargs` under its alias, then every left-hand column whose name the
aliases do not cover. -/
def subquery_join (left_query right_query : Query) (args : List JoinKey)
    (kwargs : List (String × String)) : Except DbError JoinQuery := do
  let joins ← args.mapM fun k =>
    match k with
    | .same c =>
      if left_query.hasOutCol c then
        if right_query.hasOutCol c then Except.ok (c, c) else Except.error (.keyError c)
      else Except.error (.keyError c)
    | .pair l r =>
      if left_query.hasOutCol l then
        if right_query.hasOutCol r then Except.ok (l, r) else Except.error (.keyError r)
      else Except.error (.keyError l)
  let rightPart ← kwargs.mapM fun ca =>
    if right_query.hasOutCol ca.1 then
      Except.ok (⟨.column "b" ca.1, ca.2⟩ : Labeled)
    else Except.error (.keyError ca.1)
  let covered := kwargs.map Prod.snd
  let leftPart := (left_query.projection.map fun l => (⟨SqlExpr.column "a" l.label, l.label⟩ : Labeled)).filter
    fun l => !(covered.contains l.label)
  return { left := left_query
           right := right_query
           joinOn := joins
           projection := rightPart ++ leftPart }

/-- Python truthiness of the `pandas_aggregate` value
(`if pandas_aggregate:`): `None` and the empty string are falsy. -/
def pandasTruthy : Option String → Bool
  | none => false
  | some s => s ≠ ""

/-- `Database.query_time_agg` (db.py lines 1527-1596).  Builds the
regular-aggregate plan at `time_grain = timestamp` (so its group key is
the raw timestamp), rejects a fallback regular plan (`ValueError`),
validates the time aggregate (`ValueError` unless `first` or `last`),
builds the first/last plan at the requested grain with no dimension, and
joins them on `(timestamp, <time_agg>_<timestamp>)` plus the group-by
names, surfacing the right-hand extreme and bucketed timestamp columns.
`keys.extend(groupby)` raises `TypeError` when `groupby` is `None`. -/
def query_time_agg (table : Table) (dim : Option Table) (column : String)
    (regular_agg : Aggs) (time_agg : String)
    (groupby : Option (List String)) (timestamp : String)
    (time_grain : Option String)
    (start_ts end_ts : Option String) (entities : Option (List String)) :
    Except DbError JoinQuery := do
  let agg_dict := [(column, regular_agg)]
  let a ← query_agg table dim agg_dict none groupby (some timestamp)
    (some timestamp) start_ts end_ts entities
  if pandasTruthy a.pandas_aggregate then
    Except.error (.valueError "Attempting to db time aggregation on a query cannot be pushed to the database. Perform the time aggregation in Pandas.")
  else
    let time_agg_dict ←
      if time_agg == "first" then
        Except.ok [(timestamp, Aggs.one "min")]
      else if time_agg == "last" then
        Except.ok [(timestamp, Aggs.one "max")]
      else
        Except.error (.valueError ("Invalid time aggregate " ++ time_agg ++ ". Use \"first\" or \"last\""))
    let b ← query_agg table none time_agg_dict none groupby (some timestamp)
      time_grain start_ts end_ts entities
    let right_timestamp := time_agg ++ "_" ++ timestamp
    let keys ←
      match groupby with
      | none => Except.error (.typeError "NoneType object is not iterable")
      | some gs => Except.ok (JoinKey.pair timestamp right_timestamp :: gs.map JoinKey.same)
    let right_cols := [(right_timestamp, right_timestamp), (timestamp, timestamp)]
    subquery_join a.query b.query keys right_cols

/-! ### Semantics used to state the claims -/

/-- Midnight of the day of `t`, for timestamps counted in seconds:
semantics of the SQL `date` (+ `timestamp`) composition. -/
def sqlDate (t : Nat) : Nat := t / 86400 * 86400

/-- Hour-of-day of `t` (seconds): semantics of SQL `hour`. -/
def sqlHour (t : Nat) : Nat := t % 86400 / 3600

/-- Minute-of-hour of `t` (seconds): semantics of SQL `minute`. -/
def sqlMinute (t : Nat) : Nat := t % 3600 / 60

/-- Evaluate a timestamp-valued SQL expression at a row whose timestamp
column holds `t` (seconds since the epoch).  `/` on integers is the
store's integer division (truncating, as in DB2/SQLite for integer
operands).  Negative literals make the expression meaningless here and
yield `none`. -/
def evalTs : SqlExpr → Nat → Option Nat
  | .column _ _, t => some t
  | .fn1 fn a, t =>
    if fn = "date" then (evalTs a t).map sqlDate
    else if fn = "timestamp" then evalTs a t
    else if fn = "hour" then (evalTs a t).map sqlHour
    else if fn = "minute" then (evalTs a t).map sqlMinute
    else none
  | .fn2 fn a b, t =>
    match evalTs a t, evalTs b t with
    | some x, some y =>
      if fn = "add_hours" then some (x + y * 3600)
      else if fn = "add_minutes" then some (x + y * 60)
      else none
    | _, _ => none
  | .binOp op a b, t =>
    match evalTs a t, evalTs b t with
    | some x, some y =>
      if op = "/" then some (x / y)
      else if op = "*" then some (x * y)
      else none
    | _, _ => none
  | .intLit n, _ => if n < 0 then none else some n.toNat

/-- Whether an `Except` value is a success. -/
def isOkE {ε α : Type} : Except ε α → Bool
  | .ok _ => true
  | .error _ => false

/-- Truth of an atomic predicate at a row, where `row c` says whether
column `c` is non-null at that row. -/
def predAtomHolds (row : String → Bool) : Pred → Bool
  | .isNotNull (.column _ c) => row c
  | _ => false

/-- Truth of a one-level OR filter at a row. -/
def predOrHolds (row : String → Bool) : Pred → Bool
  | .or ps => ps.any (predAtomHolds row)
  | p => predAtomHolds row p

/-- The three possible outcomes of resolving a time grain. -/
inductive GrainClass where
  | pushdown
  | fallbackFreq (f : String)
  | raised
deriving DecidableEq

/-- Collapse a time-grain resolution result to its outcome class. -/
def classifyBucket : Except DbError BucketPlan → GrainClass
  | .ok (.push _) => .pushdown
  | .ok (.fallback f) => .fallbackFreq f
  | .error _ => .raised

/-- Specification-side classification of a time grain, written from the
stated classification rules: the timestamp column itself, integer-prefixed
`min`/`H` forms, and the calendar units push down; other `min`/`H`-suffixed
strings fail integer parsing and raise; anything else becomes the fallback
resampling frequency. -/
def grainClassOfSpec (time_grain timestamp : String) : GrainClass :=
  if time_grain == timestamp then .pushdown
  else if endsWithL time_grain "min" then
    match pyInt (dropRightL time_grain 3) with
    | none => .raised
    | some _ => .pushdown
  else if endsWithL time_grain "H" then
    match pyInt (dropRightL time_grain 1) with
    | none => .raised
    | some _ => .pushdown
  else if time_grain == "day" then .pushdown
  else if time_grain == "week" then .pushdown
  else if time_grain == "month" then .pushdown
  else if time_grain == "year" then .pushdown
  else .fallbackFreq time_grain

/-! ### Concrete tables and sub-plans used to instantiate the claims -/

/-- A fact table of the shape the planner is used against. -/
def tsTable : Table :=
  ⟨"test_events", ["deviceid", "evt_timestamp", "temp", "pressure", "energy", "site"]⟩

/-- A dimension table joined on `deviceid`. -/
def dimTable : Table :=
  ⟨"test_dim", ["deviceid", "manufacturer", "factory"]⟩

/-- A left sub-plan with output columns `total_energy` and `site`. -/
def exLeftQuery : Query :=
  { projection := [⟨.fn1 "sum" (.column "test_events" "energy"), "total_energy"⟩,
                   ⟨.column "test_events" "site", "site"⟩]
    groupBy := [⟨.column "test_events" "site", "site"⟩]
    filters := []
    dimJoin := false }

/-- A right sub-plan with output columns `last_evt_timestamp` and `site`. -/
def exRightQuery : Query :=
  { projection := [⟨.fn1 "max" (.column "test_events" "evt_timestamp"), "last_evt_timestamp"⟩,
                   ⟨.column "test_events" "site", "site"⟩]
    groupBy := [⟨.column "test_events" "site", "site"⟩]
    filters := []
    dimJoin := false }

/-! ### Helper lemmas -/

theorem bind_ok_inv {ε α β : Type} {x : Except ε α} {f : α → Except ε β} {b : β}
    (h : x >>= f = .ok b) : ∃ a, x = .ok a ∧ f a = .ok b := by
  cases x with
  | ok a => exact ⟨a, rfl, h⟩
  | error e => exact Except.noConfusion h

theorem mapM_ok_eq_map {ε α β : Type} (f : α → Except ε β) (g : α → β)
    (hf : ∀ a b, f a = .ok b → b = g a) :
    ∀ (l : List α) (res : List β), l.mapM f = .ok res → res = l.map g := by
  intro l
  induction l with
  | nil =>
    intro res h
    rw [List.mapM_nil] at h
    simp only [pure, Except.pure, Except.ok.injEq] at h
    simp [← h]
  | cons a l ih =>
    intro res h
    rw [List.mapM_cons] at h
    obtain ⟨b, hb, h⟩ := bind_ok_inv h
    obtain ⟨bs, hbs, h⟩ := bind_ok_inv h
    simp only [pure, Except.pure, Except.ok.injEq] at h
    simp [← h, hf a b hb, ih bs hbs]

theorem is_not_null_shape (table : Table) (dim : Option Table) (c : String) (p : Pred)
    (h : is_not_null table dim c = .ok p) : ∃ tb, p = .isNotNull (.column tb c) := by
  unfold is_not_null at h
  split at h
  · cases h
    exact ⟨table.name, rfl⟩
  · split at h
    · split at h
      · cases h
        exact ⟨_, rfl⟩
      · exact Except.noConfusion h
    · exact Except.noConfusion h

theorem aggLoop_metric (table : Table) (dim : Option Table) (timestamp : Option String)
    (outs : Option (List (String × List String))) :
    ∀ (l : List (String × Aggs)) (args : List Labeled) (mfs : List Pred) (ws : List String),
    aggLoop table dim timestamp outs l = .ok (args, mfs, ws) →
    mfs.length = l.length ∧
      ∀ row : String → Bool, mfs.any (predAtomHolds row) = l.any fun ca => row ca.1 := by
  intro l
  induction l with
  | nil =>
    intro args mfs ws h
    unfold aggLoop at h
    simp only [Except.ok.injEq, Prod.mk.injEq] at h
    obtain ⟨h1, h2, h3⟩ := h
    simp [← h2]
  | cons hd tl ih =>
    intro args mfs ws h
    obtain ⟨col, aggs⟩ := hd
    unfold aggLoop at h
    obtain ⟨⟨argsH, wH⟩, hA, h⟩ := bind_ok_inv h
    obtain ⟨mf, hmf, h⟩ := bind_ok_inv h
    obtain ⟨⟨args2, mfs2, ws2⟩, htl, h⟩ := bind_ok_inv h
    simp only [pure, Except.pure, Except.ok.injEq, Prod.mk.injEq] at h
    obtain ⟨h1, h2, h3⟩ := h
    obtain ⟨hlen, hrow⟩ := ih args2 mfs2 ws2 htl
    obtain ⟨tb, htb⟩ := is_not_null_shape table dim col mf hmf
    subst h2
    constructor
    · simp [hlen]
    · intro row
      simp [htb, predAtomHolds, hrow row]

theorem subquery_join_ok_projection (lq rq : Query) (args : List JoinKey)
    (kwargs : List (String × String)) (q : JoinQuery)
    (h : subquery_join lq rq args kwargs = .ok q) :
    q.projection
    = kwargs.map (fun ca => (⟨.column "b" ca.1, ca.2⟩ : Labeled))
      ++ (lq.projection.map fun l => (⟨SqlExpr.column "a" l.label, l.label⟩ : Labeled)).filter
          fun l => !((kwargs.map Prod.snd).contains l.label) := by
  unfold subquery_join at h
  obtain ⟨joins, h1, h⟩ := bind_ok_inv h
  obtain ⟨rightPart, h2, h⟩ := bind_ok_inv h
  simp only [pure, Except.pure, Except.ok.injEq] at h
  have hr : rightPart = kwargs.map fun ca => (⟨.column "b" ca.1, ca.2⟩ : Labeled) := by
    refine mapM_ok_eq_map _ _ ?_ kwargs rightPart h2
    intro ca b hb
    split at hb
    · cases hb
      rfl
    · exact Except.noConfusion hb
  rw [← h]
  simp [hr]

theorem aggOutputsLookup_cases (outs : List (String × List String)) (col : String) (i : Nat) :
    (∃ s, aggOutputsLookup (some outs) col i = .ok s)
    ∨ aggOutputsLookup (some outs) col i = .error (.keyError col)
    ∨ aggOutputsLookup (some outs) col i = .error (.indexError "list index out of range") := by
  unfold aggOutputsLookup
  cases h1 : outs.lookup col with
  | none => simp [h1]
  | some l =>
    cases h2 : l[i]? with
    | none => simp [h1, h2]
    | some s => simp [h1, h2]

theorem manyLoop_defaults (table : Table) (dim : Option Table) (ts : Option String)
    (outs : List (String × List String)) (col : String)
    (hcol : table.hasCol col = true) :
    ∀ (aggs : List String) (j : Nat),
    (∀ a ∈ aggs, (agg_map.lookup a).isSome = true) →
    ∃ items warns, manyLoop table dim ts (some outs) col j aggs = .ok (items, warns)
      ∧ items.length = aggs.length
      ∧ ∀ k, k < aggs.length →
          isOkE (aggOutputsLookup (some outs) col (j + k)) = false →
          (items.map Labeled.label).get? k = some (col ++ "_" ++ aggs.getD k "")
          ∧ ("No output item name specified for " ++ col ++ ", " ++ aggs.getD k ""
              ++ ". Using default.") ∈ warns := by
  intro aggs
  induction aggs with
  | nil =>
    intro j hall
    exact ⟨[], [], rfl, rfl, fun k hk => absurd hk (by simp)⟩
  | cons a rest ih =>
    intro j hall
    obtain ⟨fn, hfn⟩ := Option.isSome_iff_exists.mp (hall a (List.mem_cons_self a rest))
    have hitem : ∀ output, aggregate_item table col a (some output) dim ts
        = .ok ⟨.fn1 fn (.column table.name col), output⟩ := by
      intro output
      unfold aggregate_item
      rw [hfn]
      simp [hcol]
    obtain ⟨items2, warns2, hrec, hlen2, hprop2⟩ :=
      ih (j + 1) (fun b hb => hall b (List.mem_cons_of_mem a hb))
    rcases aggOutputsLookup_cases outs col j with ⟨s, hs⟩ | hs | hs
    · refine ⟨⟨.fn1 fn (.column table.name col), s⟩ :: items2, warns2, ?_, by simp [hlen2], ?_⟩
      · unfold manyLoop
        rw [hs]
        simp [Bind.bind, Except.bind, pure, Except.pure, hitem, hrec]
      · intro k hk hmiss
        match k with
        | 0 =>
          rw [Nat.add_zero] at hmiss
          rw [hs] at hmiss
          exact absurd hmiss (by simp [isOkE])
        | Nat.succ k2 =>
          have hmiss2 : isOkE (aggOutputsLookup (some outs) col (j + 1 + k2)) = false := by
            have : j + 1 + k2 = j + Nat.succ k2 := by omega
            rw [this]
            exact hmiss
          obtain ⟨hg, hw⟩ := hprop2 k2 (by simp only [List.length_cons] at hk; omega) hmiss2
          exact ⟨by simpa using hg, hw⟩
    · refine ⟨⟨.fn1 fn (.column table.name col), col ++ "_" ++ a⟩ :: items2,
        ("No output item name specified for " ++ col ++ ", " ++ a ++ ". Using default.") :: warns2,
        ?_, by simp [hlen2], ?_⟩
      · unfold manyLoop
        rw [hs]
        simp [Bind.bind, Except.bind, pure, Except.pure, hitem, hrec]
      · intro k hk hmiss
        match k with
        | 0 => exact ⟨by simp, by simp⟩
        | Nat.succ k2 =>
          have hmiss2 : isOkE (aggOutputsLookup (some outs) col (j + 1 + k2)) = false := by
            have : j + 1 + k2 = j + Nat.succ k2 := by omega
            rw [this]
            exact hmiss
          obtain ⟨hg, hw⟩ := hprop2 k2 (by simp only [List.length_cons] at hk; omega) hmiss2
          exact ⟨by simpa using hg, List.mem_cons_of_mem _ hw⟩
    · refine ⟨⟨.fn1 fn (.column table.name col), col ++ "_" ++ a⟩ :: items2,
        ("No output item name specified for " ++ col ++ ", " ++ a ++ ". Using default.") :: warns2,
        ?_, by simp [hlen2], ?_⟩
      · unfold manyLoop
        rw [hs]
        simp [Bind.bind, Except.bind, pure, Except.pure, hitem, hrec]
      · intro k hk hmiss
        match k with
        | 0 => exact ⟨by simp, by simp⟩
        | Nat.succ k2 =>
          have hmiss2 : isOkE (aggOutputsLookup (some outs) col (j + 1 + k2)) = false := by
            have : j + 1 + k2 = j + Nat.succ k2 := by omega
            rw [this]
            exact hmiss
          obtain ⟨hg, hw⟩ := hprop2 k2 (by simp only [List.length_cons] at hk; omega) hmiss2
          exact ⟨by simpa using hg, List.mem_cons_of_mem _ hw⟩

theorem minuteFloorArith (t K : Nat) (hK : K ≤ t % 3600 / 60) :
    (t / 86400 * 86400 + t % 86400 / 3600 * 3600 + K * 60) % 3600 / 60 = K
    ∧ (t / 86400 * 86400 + t % 86400 / 3600 * 3600 + K * 60) / 86400 * 86400 = t / 86400 * 86400
    ∧ (t / 86400 * 86400 + t % 86400 / 3600 * 3600 + K * 60) % 86400 / 3600 = t % 86400 / 3600 := by
  refine ⟨?_, ?_, ?_⟩ <;> omega

/-! ### Claim theorems -/

/-- C1.  The claim asserts that every `query_agg` plan built with a
start timestamp, end timestamp or entity list carries the corresponding
filters, on push-down as well as fallback plans.  The code applies those
filters only on the fallback path: at this failing input (a push-down
`day` grain with `start_ts`, `end_ts` and `entities` all supplied) the
assembled plan's filter list holds nothing but the not-null disjunction,
and no `MissingTimestampColumn`-style check is reached either. -/
theorem c1_pushdown_plan_drops_date_and_entity_filters :
    (query_agg tsTable none [("temp", Aggs.one "mean")] none none
        (some "evt_timestamp") (some "day")
        (some "2023-01-01") (some "2023-01-02") (some ["A01"])).map
      (fun r => (r.query.filters, r.pandas_aggregate))
    = .ok ([Pred.or [Pred.isNotNull (.column "test_events" "temp")]], none) := rfl

/-- C2.  The claim asserts that with no explicit alias and the column
equal to the timestamp column, an aggregate kind other than `min`/`max`
gets the alias `<aggregate_kind>_<timestamp_column>`.  The code formats
the still-`None` alias variable instead, so `mean` on the timestamp
column is aliased `None_evt_timestamp`, not `mean_evt_timestamp`. -/
theorem c2_default_alias_on_timestamp_mean_is_none_prefixed :
    aggregate_item tsTable "evt_timestamp" "mean" none none (some "evt_timestamp")
    = .ok ⟨.fn1 "avg" (.column "test_events" "evt_timestamp"), "None_evt_timestamp"⟩ := rfl

/-- C3 counterexample.  The claim asserts that `query_agg` warns and
defaults "when no alias table is supplied at all"; but with
`agg_outputs = None` and a list-valued aggregate spec, `agg_outputs[col]`
raises a `TypeError`, which the `except (KeyError, IndexError)` handler
does not catch, so the call errors instead of proceeding. -/
theorem c3_no_alias_table_raises_type_error :
    query_agg tsTable none [("pressure", Aggs.many ["min", "max"])] none
        none none none none none none
    = .error (.typeError "NoneType object is not subscriptable") := rfl

/-- C3 as amended: when an alias table IS supplied but is missing the
alias for some (column, position) — whether the column key is absent or
the alias list is shorter than the aggregate-kind list — `query_agg`
logs the warning, uses the deterministic default alias
`<column>_<aggregate>` at that position, and succeeds; when no alias
table is supplied at all, the positional lookup instead raises an
uncaught `TypeError` (see the counterexample). -/
theorem c3_missing_alias_defaults_and_warns
    (col : String) (aggs : List String) (outs : List (String × List String)) (i : Nat)
    (hcol : tsTable.hasCol col = true)
    (hsupp : ∀ a ∈ aggs, (agg_map.lookup a).isSome = true)
    (hi : i < aggs.length)
    (hmiss : isOkE (aggOutputsLookup (some outs) col i) = false) :
    ∃ r, query_agg tsTable none [(col, Aggs.many aggs)] (some outs)
        none none none none none none = .ok r
      ∧ (r.query.projection.map Labeled.label).get? i = some (col ++ "_" ++ aggs.getD i "")
      ∧ ("No output item name specified for " ++ col ++ ", " ++ aggs.getD i ""
          ++ ". Using default.") ∈ r.warnings := by
  obtain ⟨items, warns, hml, hlen, hprop⟩ :=
    manyLoop_defaults tsTable none none outs col hcol aggs 0 hsupp
  have hname : tsTable.name = "test_events" := rfl
  have hinn : is_not_null tsTable none col = .ok (.isNotNull (.column "test_events" col)) := by
    simp [is_not_null, hcol, hname]
  have hA : aggLoop tsTable none none (some outs) [(col, Aggs.many aggs)]
      = .ok (items, [.isNotNull (.column "test_events" col)], warns) := by
    simp [aggLoop, aggItemsFor, hml, hinn, Bind.bind, Except.bind, pure, Except.pure]
  obtain ⟨hg, hw⟩ := hprop i hi (by simpa using hmiss)
  refine ⟨⟨⟨items, [], [.or [.isNotNull (.column "test_events" col)]], false⟩, none, warns⟩,
    ?_, by simpa using hg, hw⟩
  simp [query_agg, hA, timeGrainStep, resolveGroupBy, assembleBase,
    Bind.bind, Except.bind, pure, Except.pure]

theorem c3_missing_alias_defaults_and_warns_witness :
    tsTable.hasCol "pressure" = true ∧ (1 : Nat) < 2
    ∧ isOkE (aggOutputsLookup (some [("pressure", ["pmin"])]) "pressure" 1) = false
    ∧ (∃ r, query_agg tsTable none [("pressure", Aggs.many ["min", "max"])]
          (some [("pressure", ["pmin"])]) none none none none none none = .ok r
        ∧ (r.query.projection.map Labeled.label).get? 1
          = some ("pressure" ++ "_" ++ (["min", "max"].getD 1 ""))
        ∧ ("No output item name specified for " ++ "pressure" ++ ", "
            ++ (["min", "max"].getD 1 "") ++ ". Using default.") ∈ r.warnings) :=
  ⟨by decide, by decide, by decide,
   c3_missing_alias_defaults_and_warns "pressure" ["min", "max"] [("pressure", ["pmin"])] 1
     (by decide) (by decide) (by decide) (by decide)⟩

/-- C4 counterexample.  The claim asserts that every string other than
the recognized push-down forms yields a fallback frequency.  The grain
`"min"` ends with `min` but has no integer prefix, so `int("")` raises a
`ValueError`: neither a bucket expression nor a fallback is produced. -/
theorem c4_min_grain_raises_value_error :
    resolveTimeGrain tsTable "min" "evt_timestamp"
    = .error (.valueError "invalid literal for int() with base 10: ") := rfl

/-- C4 as amended: for every grain string (with the timestamp column
present), the resolution is totally classified by three outcomes — the
timestamp column itself, integer-prefixed `min`/`H` forms and the four
calendar units push down; remaining `min`/`H`-suffixed strings raise the
integer-parse `ValueError`; every other string yields the fallback
frequency equal to the grain string — exactly one outcome each. -/
theorem c4_grain_classification (tg : String) :
    classifyBucket (resolveTimeGrain tsTable tg "evt_timestamp")
    = grainClassOfSpec tg "evt_timestamp" := by
  have hts : tsTable.hasCol "evt_timestamp" = true := rfl
  unfold resolveTimeGrain grainClassOfSpec
  cases h1 : tg == "evt_timestamp" with
  | true => simp [h1, classifyBucket, hts]
  | false =>
    cases h2 : endsWithL tg "min" with
    | true =>
      cases hp : pyInt (dropRightL tg 3) with
      | none => simp [h1, h2, hp, classifyBucket, hts]
      | some m => simp [h1, h2, hp, classifyBucket, hts, ts_col_rounded_to_minutes, Except.map]
    | false =>
      cases h3 : endsWithL tg "H" with
      | true =>
        cases hp : pyInt (dropRightL tg 1) with
        | none => simp [h1, h2, h3, hp, classifyBucket, hts]
        | some m => simp [h1, h2, h3, hp, classifyBucket, hts, ts_col_rounded_to_hours, Except.map]
      | false =>
        cases h4 : tg == "day" with
        | true => simp [h1, h2, h3, h4, classifyBucket, hts]
        | false =>
          cases h5 : tg == "week" with
          | true => simp [h1, h2, h3, h4, h5, classifyBucket, hts]
          | false =>
            cases h6 : tg == "month" with
            | true => simp [h1, h2, h3, h4, h5, h6, classifyBucket, hts]
            | false =>
              cases h7 : tg == "year" with
              | true => simp [h1, h2, h3, h4, h5, h6, h7, classifyBucket, hts]
              | false => simp [h1, h2, h3, h4, h5, h6, h7, classifyBucket, hts]

/-- C7.  For every timestamp `t` (seconds) and bucket size `N` with
`1 ≤ N ≤ 60` and `N ∣ 60`, the `<N>min` bucket expression built by
`_ts_col_rounded_to_minutes` evaluates to a timestamp whose
minute-of-hour is a multiple of `N` and at most the true minute-of-hour
of `t` (integer-division flooring), with the date and hour of `t`
unchanged. -/
theorem c7_minute_bucketing_floors (t N : Nat)
    (h1 : 1 ≤ N) (h2 : N ≤ 60) (h3 : N ∣ 60) :
    ∃ e v, ts_col_rounded_to_minutes tsTable "evt_timestamp" (N : Int) "evt_timestamp" = .ok e
      ∧ evalTs e.expr t = some v
      ∧ N ∣ sqlMinute v
      ∧ sqlMinute v ≤ sqlMinute t
      ∧ sqlDate v = sqlDate t
      ∧ sqlHour v = sqlHour t := by
  have hK : t % 3600 / 60 / N * N ≤ t % 3600 / 60 := Nat.div_mul_le_self _ _
  obtain ⟨ha, hb, hc⟩ := minuteFloorArith t (t % 3600 / 60 / N * N) hK
  have hN0 : ¬ ((N : Int) < 0) := by omega
  refine ⟨_, t / 86400 * 86400 + t % 86400 / 3600 * 3600 + t % 3600 / 60 / N * N * 60,
    rfl, ?_, ?_, ?_, ?_, ?_⟩
  · simp [evalTs, hN0, sqlDate, sqlHour, sqlMinute]
  · simp only [sqlMinute, ha]
    exact dvd_mul_left N (t % 3600 / 60 / N)
  · simp only [sqlMinute, ha]
    exact hK
  · simpa [sqlDate] using hb
  · simpa [sqlHour] using hc

theorem c7_minute_bucketing_floors_witness :
    1 ≤ 15 ∧ 15 ≤ 60 ∧ 15 ∣ 60 ∧
    (∃ e v, ts_col_rounded_to_minutes tsTable "evt_timestamp" ((15 : Nat) : Int) "evt_timestamp" = .ok e
      ∧ evalTs e.expr 7384 = some v
      ∧ 15 ∣ sqlMinute v
      ∧ sqlMinute v ≤ sqlMinute 7384
      ∧ sqlDate v = sqlDate 7384
      ∧ sqlHour v = sqlHour 7384) :=
  ⟨by decide, by decide, by decide,
   c7_minute_bucketing_floors 7384 15 (by decide) (by decide) (by decide)⟩

/-- C8.  Whenever `query_agg` assembles a plan, the last filter applied
to it is the OR of exactly one not-null predicate per aggregated column
(the keys of `agg_dict`, one each, in order), and that filter holds at a
row exactly when at least one aggregated column is non-null there; this
is independent of the grain, so it covers push-down and fallback plans
alike, and for a single-column spec the filter is equivalent to the
plain not-null test on that column. -/
theorem c8_notnull_filter_is_or_over_aggregated_columns
    (table : Table) (dim : Option Table) (agg_dict : List (String × Aggs))
    (agg_outputs : Option (List (String × List String)))
    (groupby : Option (List String))
    (timestamp time_grain start_ts end_ts : Option String)
    (entities : Option (List String)) (r : AggResult)
    (h : query_agg table dim agg_dict agg_outputs groupby timestamp time_grain
        start_ts end_ts entities = .ok r) :
    ∃ ps, r.query.filters.getLast? = some (.or ps)
      ∧ ps.length = agg_dict.length
      ∧ ∀ row : String → Bool,
          predOrHolds row (.or ps) = agg_dict.any fun ca => row ca.1 := by
  unfold query_agg at h
  obtain ⟨⟨args, mfs, ws⟩, h1, h⟩ := bind_ok_inv h
  obtain ⟨⟨tgrp, pa⟩, h2, h⟩ := bind_ok_inv h
  obtain ⟨ggrp, h3, h⟩ := bind_ok_inv h
  obtain ⟨base, h4, h⟩ := bind_ok_inv h
  simp only [pure, Except.pure, Except.ok.injEq] at h
  obtain ⟨hlen, hrow⟩ := aggLoop_metric table dim timestamp agg_outputs agg_dict args mfs ws h1
  refine ⟨mfs, ?_, hlen, ?_⟩
  · rw [← h]
    simp
  · intro row
    simpa [predOrHolds] using hrow row

theorem c8_notnull_filter_is_or_over_aggregated_columns_witness :
    ∃ r, query_agg tsTable none [("temp", Aggs.one "mean")] none none
        (some "evt_timestamp") (some "W-MON") (some "2023-01-01") none none = .ok r
      ∧ ∃ ps, r.query.filters.getLast? = some (.or ps)
        ∧ ps.length = 1
        ∧ ∀ row : String → Bool, predOrHolds row (.or ps) = row "temp" := by
  refine ⟨_, rfl, ?_⟩
  have hm := c8_notnull_filter_is_or_over_aggregated_columns tsTable none
    [("temp", Aggs.one "mean")] none none (some "evt_timestamp") (some "W-MON")
    (some "2023-01-01") none none _ rfl
  obtain ⟨ps, hp1, hp2, hp3⟩ := hm
  exact ⟨ps, hp1, hp2, fun row => by simpa using hp3 row⟩

/-- C9.  Whenever `subquery_join` succeeds, its output projection
consists of exactly: each right-hand column named in the alias map,
labeled with its alias, plus each left-hand column whose name is not
among the alias-map output names — so a left-hand column survives iff no
right-hand alias covers its name, and a covered name is served by the
right-hand aliased column. -/
theorem c9_join_projection_aliases_win (lq rq : Query) (args : List JoinKey)
    (kwargs : List (String × String)) (q : JoinQuery)
    (h : subquery_join lq rq args kwargs = .ok q) :
    (∀ la ∈ lq.projection, ((kwargs.map Prod.snd).contains la.label) = false →
      (⟨SqlExpr.column "a" la.label, la.label⟩ : Labeled) ∈ q.projection)
    ∧ (∀ ca ∈ kwargs, (⟨SqlExpr.column "b" ca.1, ca.2⟩ : Labeled) ∈ q.projection)
    ∧ ∀ e ∈ q.projection,
        (∃ ca ∈ kwargs, e = ⟨SqlExpr.column "b" ca.1, ca.2⟩)
        ∨ ∃ la ∈ lq.projection, e = ⟨SqlExpr.column "a" la.label, la.label⟩
            ∧ ((kwargs.map Prod.snd).contains la.label) = false := by
  rw [subquery_join_ok_projection lq rq args kwargs q h]
  refine ⟨?_, ?_, ?_⟩
  · intro la hla hcov
    refine List.mem_append_right _ ?_
    simp only [List.mem_filter, List.mem_map]
    exact ⟨⟨la, hla, rfl⟩, by rw [hcov]; rfl⟩
  · intro ca hca
    exact List.mem_append_left _ (List.mem_map_of_mem _ hca)
  · intro e he
    rcases List.mem_append.mp he with hl | hr
    · obtain ⟨ca, hca, hc⟩ := List.mem_map.mp hl
      exact Or.inl ⟨ca, hca, hc.symm⟩
    · obtain ⟨hm, hcov⟩ := List.mem_filter.mp hr
      obtain ⟨la, hla, hc⟩ := List.mem_map.mp hm
      refine Or.inr ⟨la, hla, hc.symm, ?_⟩
      simpa [← hc] using hcov

theorem c9_join_projection_aliases_win_witness :
    ∃ q, subquery_join exLeftQuery exRightQuery [JoinKey.same "site"]
        [("last_evt_timestamp", "last_evt_timestamp")] = .ok q
      ∧ (⟨SqlExpr.column "a" "site", "site"⟩ : Labeled) ∈ q.projection
      ∧ (⟨SqlExpr.column "a" "total_energy", "total_energy"⟩ : Labeled) ∈ q.projection
      ∧ (⟨SqlExpr.column "b" "last_evt_timestamp", "last_evt_timestamp"⟩ : Labeled) ∈ q.projection := by
  have hm := c9_join_projection_aliases_win exLeftQuery exRightQuery
    [JoinKey.same "site"] [("last_evt_timestamp", "last_evt_timestamp")] _ rfl
  refine ⟨_, rfl, ?_, ?_, ?_⟩
  · exact hm.1 ⟨.column "test_events" "site", "site"⟩ (by simp [exLeftQuery]) (by decide)
  · exact hm.1 ⟨.fn1 "sum" (.column "test_events" "energy"), "total_energy"⟩
      (by simp [exLeftQuery]) (by decide)
  · exact hm.2.1 ("last_evt_timestamp", "last_evt_timestamp") (by simp)

/-- C5 counterexample.  The claim asserts that a fallback sub-plan makes
`query_time_agg` fail with the fallback error before any join is built.
With grain `"W-MON"` the first/last plan resolves to a fallback plan,
yet no such error is raised: construction proceeds to `subquery_join`,
which fails with a `KeyError` because the fallback plan has no
`last_evt_timestamp` output column. -/
theorem c5_fallback_side_reaches_join_and_raises_key_error :
    query_time_agg tsTable none "energy" (Aggs.one "sum") "last" (some ["site"])
        "evt_timestamp" (some "W-MON") none none none
    = .error (.keyError "last_evt_timestamp")
    ∧ query_time_agg tsTable none "energy" (Aggs.one "sum") "last" (some ["site"])
        "evt_timestamp" (some "W-MON") none none none
    ≠ .error (.valueError "Attempting to db time aggregation on a query cannot be pushed to the database. Perform the time aggregation in Pandas.") := by
  constructor
  · rfl
  · intro h
    rw [show query_time_agg tsTable none "energy" (Aggs.one "sum") "last" (some ["site"])
        "evt_timestamp" (some "W-MON") none none none
      = .error (.keyError "last_evt_timestamp") from rfl] at h
    simp at h

/-- C5 as amended: `query_time_agg` fails with the `InvalidTimeAggregate`
`ValueError` whenever the requested time aggregate is neither `first`
nor `last` (shown here for every such string once the regular plan is
well-formed); the fallback guard, by contrast, is applied only to the
regular-aggregate plan — which is built at grain equal to the timestamp
column and so never resolves to fallback — and a fallback first/last
plan is not rejected before the join (it fails inside join construction
with a `KeyError`, as the counterexample shows). -/
theorem c5_invalid_time_aggregate_rejected (time_agg : String)
    (h1 : time_agg ≠ "first") (h2 : time_agg ≠ "last") :
    query_time_agg tsTable none "energy" (Aggs.one "sum") time_agg (some ["site"])
        "evt_timestamp" (some "day") none none none
    = .error (.valueError ("Invalid time aggregate " ++ time_agg ++ ". Use \"first\" or \"last\"")) := by
  have hf : (time_agg == "first") = false := beq_eq_false_iff_ne.mpr h1
  have hl : (time_agg == "last") = false := beq_eq_false_iff_ne.mpr h2
  have ha : query_agg tsTable none [("energy", Aggs.one "sum")] none (some ["site"])
      (some "evt_timestamp") (some "evt_timestamp") none none none
    = .ok { query := { projection := [⟨.fn1 "sum" (.column "test_events" "energy"), "energy"⟩,
                                      ⟨.column "test_events" "evt_timestamp", "evt_timestamp"⟩,
                                      ⟨.column "test_events" "site", "site"⟩]
                       groupBy := [⟨.column "test_events" "evt_timestamp", "evt_timestamp"⟩,
                                   ⟨.column "test_events" "site", "site"⟩]
                       filters := [.or [.isNotNull (.column "test_events" "energy")]]
                       dimJoin := false }
            pandas_aggregate := none
            warnings := [] } := rfl
  simp [query_time_agg, ha, Bind.bind, Except.bind, pandasTruthy, hf, hl]

theorem c5_invalid_time_aggregate_rejected_witness :
    query_time_agg tsTable none "energy" (Aggs.one "sum") "mean" (some ["site"])
        "evt_timestamp" (some "day") none none none
    = .error (.valueError "Invalid time aggregate mean. Use \"first\" or \"last\"") :=
  c5_invalid_time_aggregate_rejected "mean" (by decide) (by decide)

/-- C10.  Group-by resolution in `query_agg`: a name present in the fact
table resolves against it; a name absent from the fact table resolves
against the dimension when one is supplied; a miss with no dimension
fails with a `KeyError`, a miss from both tables fails with a
`ValueError` — two distinct exception kinds, so callers can tell the
cases apart. -/
theorem c10_groupby_resolution (g : String) :
    (tsTable.hasCol g = true →
      ∃ r, query_agg tsTable (some dimTable) [("temp", Aggs.one "mean")] none
          (some [g]) none none none none none = .ok r
        ∧ r.query.groupBy = [⟨.column "test_events" g, g⟩])
    ∧ (tsTable.hasCol g = false → dimTable.hasCol g = true →
      ∃ r, query_agg tsTable (some dimTable) [("temp", Aggs.one "mean")] none
          (some [g]) none none none none none = .ok r
        ∧ r.query.groupBy = [⟨.column "test_dim" g, g⟩])
    ∧ (tsTable.hasCol g = false →
      query_agg tsTable none [("temp", Aggs.one "mean")] none
          (some [g]) none none none none none
      = .error (.keyError ("group by column " ++ g ++ " not found in main table and no dimension table specified")))
    ∧ (tsTable.hasCol g = false → dimTable.hasCol g = false →
      query_agg tsTable (some dimTable) [("temp", Aggs.one "mean")] none
          (some [g]) none none none none none
      = .error (.valueError ("group by column " ++ g ++ " not found in main table or dimension table")))
    ∧ ∀ m1 m2, DbError.keyError m1 ≠ DbError.valueError m2 := by
  have hA1 : aggLoop tsTable (some dimTable) none none [("temp", Aggs.one "mean")]
    = .ok ([⟨.fn1 "avg" (.column "test_events" "temp"), "temp"⟩],
           [.isNotNull (.column "test_events" "temp")], []) := rfl
  have hA2 : aggLoop tsTable none none none [("temp", Aggs.one "mean")]
    = .ok ([⟨.fn1 "avg" (.column "test_events" "temp"), "temp"⟩],
           [.isNotNull (.column "test_events" "temp")], []) := rfl
  have hname1 : tsTable.name = "test_events" := rfl
  have hname2 : dimTable.name = "test_dim" := rfl
  refine ⟨?_, ?_, ?_, ?_, ?_⟩
  · intro hfact
    refine ⟨⟨⟨[⟨.fn1 "avg" (.column "test_events" "temp"), "temp"⟩, ⟨.column "test_events" g, g⟩],
              [⟨.column "test_events" g, g⟩],
              [.or [.isNotNull (.column "test_events" "temp")]], true⟩, none, []⟩, ?_, rfl⟩
    unfold query_agg
    rw [hA1]
    simp [Bind.bind, Except.bind, pure, Except.pure, timeGrainStep, resolveGroupBy, hfact, assembleBase, hname1, hname2]
  · intro hfact hdim
    refine ⟨⟨⟨[⟨.fn1 "avg" (.column "test_events" "temp"), "temp"⟩, ⟨.column "test_dim" g, g⟩],
              [⟨.column "test_dim" g, g⟩],
              [.or [.isNotNull (.column "test_events" "temp")]], true⟩, none, []⟩, ?_, rfl⟩
    unfold query_agg
    rw [hA1]
    simp [Bind.bind, Except.bind, pure, Except.pure, timeGrainStep, resolveGroupBy, hfact, hdim, assembleBase, hname1, hname2]
  · intro hfact
    unfold query_agg
    rw [hA2]
    simp [Bind.bind, Except.bind, pure, Except.pure, timeGrainStep, resolveGroupBy, hfact, hname1, hname2]
  · intro hfact hdim
    unfold query_agg
    rw [hA1]
    simp [Bind.bind, Except.bind, pure, Except.pure, timeGrainStep, resolveGroupBy, hfact, hdim, hname1, hname2]
  · intro m1 m2 hcontra
    exact DbError.noConfusion hcontra

theorem c10_groupby_resolution_witness :
    (∃ r, query_agg tsTable (some dimTable) [("temp", Aggs.one "mean")] none
        (some ["site"]) none none none none none = .ok r
      ∧ r.query.groupBy = [⟨.column "test_events" "site", "site"⟩])
    ∧ (∃ r, query_agg tsTable (some dimTable) [("temp", Aggs.one "mean")] none
        (some ["manufacturer"]) none none none none none = .ok r
      ∧ r.query.groupBy = [⟨.column "test_dim" "manufacturer", "manufacturer"⟩])
    ∧ query_agg tsTable none [("temp", Aggs.one "mean")] none
        (some ["manufacturer"]) none none none none none
      = .error (.keyError "group by column manufacturer not found in main table and no dimension table specified")
    ∧ query_agg tsTable (some dimTable) [("temp", Aggs.one "mean")] none
        (some ["altitude"]) none none none none none
      = .error (.valueError "group by column altitude not found in main table or dimension table") :=
  ⟨(c10_groupby_resolution "site").1 (by decide),
   (c10_groupby_resolution "manufacturer").2.1 (by decide) (by decide),
   (c10_groupby_resolution "manufacturer").2.2.1 (by decide),
   (c10_groupby_resolution "altitude").2.2.2.1 (by decide) (by decide)⟩

/-- C6 counterexample.  The claim asserts that in the
`{energy: sum}` / `last` / `day` / `site` scenario the regular rollup is
bucketed at the requested grain.  The code builds the regular plan with
`time_grain = timestamp`, so its group key is the raw timestamp column,
not the `day` bucket expression. -/
theorem c6_regular_rollup_groups_at_raw_timestamp :
    (query_time_agg tsTable none "energy" (Aggs.one "sum") "last" (some ["site"])
        "evt_timestamp" (some "day") none none none).map (fun q => q.left.groupBy)
    = .ok [⟨.column "test_events" "evt_timestamp", "evt_timestamp"⟩,
           ⟨.column "test_events" "site", "site"⟩]
    ∧ (⟨.column "test_events" "evt_timestamp", "evt_timestamp"⟩ : Labeled)
    ≠ ⟨.fn1 "day" (.column "test_events" "evt_timestamp"), "evt_timestamp"⟩ := by
  exact ⟨rfl, by simp⟩

/-- C6 as amended: in that scenario the regular rollup is grouped at the
raw timestamp (grain = timestamp column), only the first/last plan is
bucketed at the requested `day` grain, the join is on
`(evt_timestamp, last_evt_timestamp)` plus the group-by key `site`, and
the joined projection carries `last_evt_timestamp`, the bucketed
`evt_timestamp`, the regular aggregate output `energy`, and `site` — one
output row per right-hand (site, day) bucket. -/
theorem c6_day_last_join_shape :
    (query_time_agg tsTable none "energy" (Aggs.one "sum") "last" (some ["site"])
        "evt_timestamp" (some "day") none none none).map
      (fun q => (q.left.groupBy, q.right.groupBy, q.joinOn, q.projection.map Labeled.label))
    = .ok ([⟨.column "test_events" "evt_timestamp", "evt_timestamp"⟩,
            ⟨.column "test_events" "site", "site"⟩],
           [⟨.fn1 "day" (.column "test_events" "evt_timestamp"), "evt_timestamp"⟩,
            ⟨.column "test_events" "site", "site"⟩],
           [("evt_timestamp", "last_evt_timestamp"), ("site", "site")],
           ["last_evt_timestamp", "evt_timestamp", "energy", "site"]) := rfl

end LSPI
